import Mathlib

/-!
Shallow embedding of the chat session and request-lifecycle controller of the
Presontology front end (the `App` component: `handleSubmit`,
`handleSuggestedQuestionClick`, `fetchGraphDataAndShow`, `handleHideGraph`,
and the state hooks `prompt`, `messages`, `isLoading`, `showGraph`,
`graphData`, `graphDataLoading`, `graphDataError`).

Asynchronous handlers are split into a synchronous start phase (everything up
to the awaited fetch) and a settle phase (the continuation run when that fetch
settles), so that interleavings of starts and settlements can be stated
explicitly.  JS truthiness tests (`||`, `!!`, `!s.trim()`) are modelled with
explicit emptiness tests on strings and `Option` for possibly-undefined
values.
-/

namespace Presontology

/-- Message kinds of the transcript (the `type` field of `ChatMessage`). -/
inductive MessageType where
  | user
  | agent
  | error
deriving DecidableEq

/-- Raw query result records (`any[]` in the source) are opaque values carried
through unchanged; each is modelled by its serialized text. -/
abbrev RawRecord := String

/-- The `ChatMessage` interface.  Optional TS fields become `Option`; fields a
message literal omits are `undefined`, i.e. `none`. -/
structure ChatMessage where
  type : MessageType
  text : String
  timestamp : String
  isSuggested : Option Bool := none
  sparqlQuery : Option String := none
  rawQueryResults : Option (List RawRecord) := none
  addedTriples : Option String := none
deriving DecidableEq

/-- The `AgentQueryResponse` interface as seen at runtime.  The TS interface
declares `sparql_query` and `raw_query_results` required, but `res.json()`
does not enforce presence and `handleSubmit` copies the fields one by one onto
the optional `ChatMessage` fields, so presence is modelled with `Option`. -/
structure AgentQueryResponse where
  user_prompt : String
  sparql_query : Option String
  raw_query_results : Option (List RawRecord)
  agent_response : String
  added_triples : Option String
deriving DecidableEq

/-- How an awaited fetch / response-processing sequence can fail, following the
code paths of `handleSubmit` and `fetchGraphDataAndShow`:
a non-ok response whose body parses (optionally carrying an `error` field),
a non-ok response whose body fails to parse (`res.json()` throws),
an ok response whose body fails to parse, or a rejected `fetch` itself. -/
inductive FetchFailure where
  | httpError (errorField : Option String) (status : Nat)
  | httpErrorBadBody (status : Nat) (message : String)
  | badResponseBody (message : String)
  | networkError (message : String)
deriving DecidableEq

/-- Settlement of a fetch: parsed success data, or one of the failure paths. -/
inductive FetchOutcome (α : Type) where
  | success (data : α)
  | failure (f : FetchFailure)
deriving DecidableEq

/-- The template string `HTTP error! Status: N` built when a non-ok
response carries no usable `error` field. -/
def httpStatusMessage (status : Nat) : String :=
  "HTTP error! Status: " ++ toString status

/-- The `err.message` observed in the catch block.  For a non-ok response with
a parsable body the code throws `new Error(errorData.error || template)`; the
`||` is a JS falsy test, so an absent or empty `error` field selects the
template.  The other paths carry the message of the exception that occurred. -/
def thrownMessage : FetchFailure → String
  | .httpError errorField status =>
      match errorField with
      | some e => if e = "" then httpStatusMessage status else e
      | none => httpStatusMessage status
  | .httpErrorBadBody _ m => m
  | .badResponseBody m => m
  | .networkError m => m

/-- Text stored by a catch block: `err.message || fallback` (JS falsy test, so
an empty message selects the controller's fixed fallback string). -/
def caughtText (fallback : String) (f : FetchFailure) : String :=
  if thrownMessage f = "" then fallback else thrownMessage f

/-- The chat-side state hooks: `prompt`, `messages`, `isLoading`. -/
structure ChatState where
  prompt : String
  messages : List ChatMessage
  isLoading : Bool
deriving DecidableEq

/-- Helper for `jsTrim`: drop leading whitespace characters. -/
def dropLeadingWs : List Char → List Char
  | [] => []
  | c :: cs => if c.isWhitespace then dropLeadingWs cs else c :: cs

/-- The `.trim()` call of the guard: remove leading and trailing whitespace.
Written structurally over the character list so that it evaluates by kernel
reduction (the JS method also strips some exotic Unicode space characters,
which never arise in the properties considered here). -/
def jsTrim (s : String) : String :=
  ⟨(dropLeadingWs (dropLeadingWs s.data).reverse).reverse⟩

/-- The expression `suggestedText || prompt` (JS falsy test: `undefined` or the
empty string select `prompt`). -/
def currentPromptOf (suggestedText : Option String) (prompt : String) : String :=
  match suggestedText with
  | some t => if t = "" then prompt else t
  | none => prompt

/-- The expression `!!suggestedText` of the user-message literal. -/
def isSuggestedOf (suggestedText : Option String) : Bool :=
  match suggestedText with
  | some t => t ≠ ""
  | none => false

/-- The user-message literal appended by `handleSubmit` before the fetch. -/
def userMessageOf (suggestedText : Option String) (currentPrompt now : String) :
    ChatMessage :=
  { type := .user, text := currentPrompt, timestamp := now,
    isSuggested := some (isSuggestedOf suggestedText) }

/-- Synchronous phase of `handleSubmit`, up to the awaited fetch: the
empty-trim guard, appending the user message, clearing the draft and raising
`isLoading`, and issuing the request.  Returns the new state together with the
prompt sent as the request body (`none` when the guard returned early and no
request was issued). -/
def handleSubmitStart (s : ChatState) (suggestedText : Option String) (now : String) :
    ChatState × Option String :=
  let currentPrompt := currentPromptOf suggestedText s.prompt
  if jsTrim currentPrompt = "" then (s, none)
  else
    ({ prompt := ""
       messages := s.messages ++ [userMessageOf suggestedText currentPrompt now]
       isLoading := true },
     some currentPrompt)

/-- Fixed fallback text of `handleSubmit`'s catch block. -/
def chatFallback : String := "An unexpected error occurred. Please try again."

/-- The message appended when `handleSubmit`'s awaited fetch settles: on
success an `agent` message copying the response fields, on any failure an
`error` message with the caught text. -/
def settleMessage (o : FetchOutcome AgentQueryResponse) (now : String) : ChatMessage :=
  match o with
  | .success data =>
      { type := .agent, text := data.agent_response, timestamp := now,
        sparqlQuery := data.sparql_query, rawQueryResults := data.raw_query_results,
        addedTriples := data.added_triples }
  | .failure f =>
      { type := .error, text := caughtText chatFallback f, timestamp := now }

/-- Continuation of `handleSubmit` after its fetch settles: append the agent or
error message; the `finally` clause clears `isLoading` on every path. -/
def handleSubmitSettle (s : ChatState) (o : FetchOutcome AgentQueryResponse)
    (now : String) : ChatState :=
  { s with messages := s.messages ++ [settleMessage o now], isLoading := false }

/-- One whole `handleSubmit` call under the sequential schedule in which its
own fetch settles next (no interleaved handler runs in between). -/
def handleSubmitRun (s : ChatState) (suggestedText : Option String) (now later : String)
    (o : FetchOutcome AgentQueryResponse) : ChatState :=
  match handleSubmitStart s suggestedText now with
  | (s1, none) => s1
  | (s1, some _) => handleSubmitSettle s1 o later

/-- The `handleSuggestedQuestionClick` handler: guarded by `isLoading`, it sets
the draft to the question and calls `handleSubmit(undefined, question)`. -/
def handleSuggestedQuestionClick (s : ChatState) (question now : String) :
    ChatState × Option String :=
  if s.isLoading then (s, none)
  else handleSubmitStart { s with prompt := question } (some question) now

/-- A graph node of the `GraphNode` interface. -/
structure GraphNode where
  id : String
  name : String
  isLiteral : Option Bool := none
deriving DecidableEq

/-- A graph edge of the `GraphLink` interface. -/
structure GraphLink where
  source : String
  target : String
  label : String
deriving DecidableEq

/-- A graph snapshot of the `GraphData` interface. -/
structure GraphData where
  nodes : List GraphNode
  links : List GraphLink
deriving DecidableEq

/-- The graph-side state hooks: `showGraph`, `graphData`, `graphDataLoading`,
`graphDataError`. -/
structure GraphState where
  showGraph : Bool
  graphData : Option GraphData
  graphDataLoading : Bool
  graphDataError : Option String
deriving DecidableEq

/-- Fixed fallback text of `fetchGraphDataAndShow`'s catch block. -/
def graphFallback : String := "Could not load graph data. Please try again."

/-- Synchronous phase of `fetchGraphDataAndShow` up to the awaited fetch:
clear the error, raise `graphDataLoading`, show the panel, and issue the
request.  The returned `Bool` records that a fetch was issued; the function
performs no loading check and fetches unconditionally. -/
def fetchGraphDataAndShowStart (g : GraphState) : GraphState × Bool :=
  ({ g with graphDataError := none, graphDataLoading := true, showGraph := true }, true)

/-- Completion handler of `fetchGraphDataAndShow`: on success store the
snapshot; on failure store the caught text and null the snapshot; the
`finally` clause clears `graphDataLoading` on every path.  No check that the
request is still the current one is performed. -/
def fetchGraphDataAndShowSettle (g : GraphState) (o : FetchOutcome GraphData) :
    GraphState :=
  match o with
  | .success data => { g with graphData := some data, graphDataLoading := false }
  | .failure f =>
      { g with graphDataError := some (caughtText graphFallback f),
               graphData := none, graphDataLoading := false }

/-- The `handleHideGraph` handler: hide the panel and reset all graph state. -/
def handleHideGraph (_g : GraphState) : GraphState :=
  { showGraph := false, graphData := none, graphDataError := none,
    graphDataLoading := false }

/-- The snapshot the view actually renders: the JSX draws the graph only when
the panel is on and `graphData && !graphDataLoading && !graphDataError`. -/
def displayedGraph (g : GraphState) : Option GraphData :=
  if g.showGraph && !g.graphDataLoading && g.graphDataError.isNone then g.graphData
  else none

/-- Arguments and settlement of one `handleSubmit` call, for stating
properties of sequences of calls. -/
structure SubmitCall where
  suggestedText : Option String
  now : String
  later : String
  outcome : FetchOutcome AgentQueryResponse

/-- Run a sequence of whole `handleSubmit` calls in order. -/
def runSubmits (s : ChatState) (calls : List SubmitCall) : ChatState :=
  calls.foldl (fun st c => handleSubmitRun st c.suggestedText c.now c.later c.outcome) s

/-- Helper: one whole `handleSubmit` call only appends to the transcript. -/
theorem handleSubmitRun_messages_append (s : ChatState) (sug : Option String)
    (now later : String) (o : FetchOutcome AgentQueryResponse) :
    ∃ tail, (handleSubmitRun s sug now later o).messages = s.messages ++ tail := by
  unfold handleSubmitRun handleSubmitStart
  by_cases h : jsTrim (currentPromptOf sug s.prompt) = ""
  · exact ⟨[], by simp [h]⟩
  · refine ⟨[userMessageOf sug (currentPromptOf sug s.prompt) now,
      settleMessage o later], ?_⟩
    simp [h, handleSubmitSettle]

/-- Helper: any sequence of whole `handleSubmit` calls only appends. -/
theorem runSubmits_messages_append (calls : List SubmitCall) (s : ChatState) :
    ∃ tail, (runSubmits s calls).messages = s.messages ++ tail := by
  induction calls generalizing s with
  | nil => exact ⟨[], by simp [runSubmits]⟩
  | cons c cs ih =>
      obtain ⟨t1, h1⟩ :=
        handleSubmitRun_messages_append s c.suggestedText c.now c.later c.outcome
      obtain ⟨t2, h2⟩ := ih (handleSubmitRun s c.suggestedText c.now c.later c.outcome)
      exact ⟨t1 ++ t2, by simp [runSubmits] at h2 ⊢; rw [h2, h1, List.append_assoc]⟩

/-- C9: for every prompt whose trimmed text is empty, `handleSubmit` is a
no-op: the state (transcript, draft, `isLoading`) is returned unchanged and no
request is issued. -/
theorem empty_prompt_submit_noop (s : ChatState) (sug : Option String)
    (now later : String) (o : FetchOutcome AgentQueryResponse)
    (h : jsTrim (currentPromptOf sug s.prompt) = "") :
    handleSubmitRun s sug now later o = s ∧ (handleSubmitStart s sug now).2 = none := by
  constructor
  · unfold handleSubmitRun handleSubmitStart
    simp [h]
  · unfold handleSubmitStart
    simp [h]

/-- Witness for C9 at the whitespace-only prompt. -/
theorem empty_prompt_submit_noop_witness :
    jsTrim (currentPromptOf none "   ") = "" ∧
      (handleSubmitRun ⟨"   ", [], false⟩ none "10:00" "10:01"
          (FetchOutcome.failure (FetchFailure.networkError "down")) = ⟨"   ", [], false⟩ ∧
        (handleSubmitStart ⟨"   ", [], false⟩ none "10:00").2 = none) :=
  ⟨by decide,
    empty_prompt_submit_noop ⟨"   ", [], false⟩ none "10:00" "10:01"
      (FetchOutcome.failure (FetchFailure.networkError "down")) (by decide)⟩

/-- C5: for every `handleSubmit` call that passes the non-empty guard,
`isLoading` is false after its fetch settles, whatever the outcome (success or
any failure path), and the graph controller's `graphDataLoading` is false
after its fetch settles, whatever the outcome. -/
theorem loading_flags_clear_on_settlement (s : ChatState) (sug : Option String)
    (now later : String) (o : FetchOutcome AgentQueryResponse)
    (g : GraphState) (og : FetchOutcome GraphData)
    (h : jsTrim (currentPromptOf sug s.prompt) ≠ "") :
    (handleSubmitRun s sug now later o).isLoading = false ∧
      (fetchGraphDataAndShowSettle g og).graphDataLoading = false := by
  constructor
  · unfold handleSubmitRun handleSubmitStart
    simp [h, handleSubmitSettle]
  · cases og <;> rfl

/-- Witness for C5 at a concrete non-empty prompt, failure outcomes included. -/
theorem loading_flags_clear_on_settlement_witness :
    jsTrim (currentPromptOf none "hi") ≠ "" ∧
      ((handleSubmitRun ⟨"hi", [], false⟩ none "10:00" "10:01"
            (FetchOutcome.failure (FetchFailure.badResponseBody "bad json"))).isLoading
          = false ∧
        (fetchGraphDataAndShowSettle ⟨true, none, true, none⟩
            (FetchOutcome.success ⟨[], []⟩)).graphDataLoading = false) :=
  ⟨by decide,
    loading_flags_clear_on_settlement ⟨"hi", [], false⟩ none "10:00" "10:01"
      (FetchOutcome.failure (FetchFailure.badResponseBody "bad json"))
      ⟨true, none, true, none⟩ (FetchOutcome.success ⟨[], []⟩) (by decide)⟩

/-- C10: the user message's text is the locally submitted prompt verbatim, and
the response's `user_prompt` echo field is never read: two runs whose
responses differ only in `user_prompt` yield identical states. -/
theorem user_prompt_echo_never_read (s : ChatState) (sug : Option String)
    (now later : String) (d : AgentQueryResponse) (x : String) :
    handleSubmitRun s sug now later (FetchOutcome.success { d with user_prompt := x }) =
        handleSubmitRun s sug now later (FetchOutcome.success d) ∧
      (handleSubmitStart s sug now).1.messages =
        (if jsTrim (currentPromptOf sug s.prompt) = "" then s.messages
         else s.messages ++
           [userMessageOf sug (currentPromptOf sug s.prompt) now]) := by
  constructor
  · unfold handleSubmitRun handleSubmitStart
    by_cases h : jsTrim (currentPromptOf sug s.prompt) = "" <;>
      simp [h, handleSubmitSettle, settleMessage]
  · unfold handleSubmitStart
    by_cases h : jsTrim (currentPromptOf sug s.prompt) = "" <;> simp [h]

/-- C6: the transcript is append-only: one `handleSubmit` call either leaves
it unchanged (empty-trim guard) or appends exactly the user message followed
by the settlement message, whose kind is `agent` or `error` — so the user
message always precedes its outcome — and any sequence of calls only ever
extends the transcript, never reordering, removing, or editing entries. -/
theorem transcript_append_only_and_user_first (s : ChatState) (sug : Option String)
    (now later : String) (o : FetchOutcome AgentQueryResponse)
    (s0 : ChatState) (calls : List SubmitCall) :
    ((handleSubmitRun s sug now later o).messages =
        if jsTrim (currentPromptOf sug s.prompt) = "" then s.messages
        else s.messages ++
          [userMessageOf sug (currentPromptOf sug s.prompt) now,
            settleMessage o later]) ∧
      (userMessageOf sug (currentPromptOf sug s.prompt) now).type = MessageType.user ∧
      ((settleMessage o later).type = MessageType.agent ∨
        (settleMessage o later).type = MessageType.error) ∧
      ∃ tail, (runSubmits s0 calls).messages = s0.messages ++ tail := by
  refine ⟨?_, rfl, ?_, runSubmits_messages_append calls s0⟩
  · unfold handleSubmitRun handleSubmitStart
    by_cases h : jsTrim (currentPromptOf sug s.prompt) = "" <;>
      simp [h, handleSubmitSettle]
  · cases o <;> simp [settleMessage]

/-- C7: on a successful response the appended agent message copies the
response fields: `agent_response` becomes `text`, and `sparql_query`,
`raw_query_results`, `added_triples` become `sparqlQuery`, `rawQueryResults`,
`addedTriples`, each present with the same value exactly when present in the
response and absent (`none`) when the response omits it. -/
theorem agent_message_field_mapping (s : ChatState) (sug : Option String)
    (now later : String) (d : AgentQueryResponse)
    (h : jsTrim (currentPromptOf sug s.prompt) ≠ "") :
    ∃ m, (handleSubmitRun s sug now later (FetchOutcome.success d)).messages.getLast? =
        some m ∧
      m.type = MessageType.agent ∧ m.text = d.agent_response ∧
      m.sparqlQuery = d.sparql_query ∧ m.rawQueryResults = d.raw_query_results ∧
      m.addedTriples = d.added_triples := by
  refine ⟨settleMessage (FetchOutcome.success d) later, ?_, rfl, rfl, rfl, rfl, rfl⟩
  unfold handleSubmitRun handleSubmitStart
  simp [h, handleSubmitSettle]

/-- Witness for C7: a response carrying every optional field maps onto the
agent message unchanged. -/
theorem agent_message_field_mapping_witness :
    jsTrim (currentPromptOf none "q") ≠ "" ∧
      ∃ m, (handleSubmitRun ⟨"q", [], false⟩ none "10:00" "10:01"
            (FetchOutcome.success
              ⟨"echo", some "SELECT ?s", some ["row1"], "the answer",
                some ":a :b :c ."⟩)).messages.getLast? = some m ∧
        m.type = MessageType.agent ∧ m.text = "the answer" ∧
        m.sparqlQuery = some "SELECT ?s" ∧ m.rawQueryResults = some ["row1"] ∧
        m.addedTriples = some ":a :b :c ." :=
  ⟨by decide,
    agent_message_field_mapping ⟨"q", [], false⟩ none "10:00" "10:01"
      ⟨"echo", some "SELECT ?s", some ["row1"], "the answer", some ":a :b :c ."⟩
      (by decide)⟩

/-- A state with a request pending: one user message already in the
transcript, `isLoading` true, a non-empty draft. -/
def pendingChatState : ChatState :=
  { prompt := "second question",
    messages := [userMessageOf none "first question" "10:00"],
    isLoading := true }

/-- C1 fails on the code: `handleSubmit` performs no pending check, so calling
it while `isLoading` is true appends a second user message and issues a second
request, and once both fetches settle the transcript holds both requests'
outcomes (four messages), not exactly one. -/
theorem submit_while_pending_not_rejected_cex :
    (handleSubmitStart pendingChatState none "10:05").2 = some "second question" ∧
      (handleSubmitStart pendingChatState none "10:05").1.messages.length = 2 ∧
      pendingChatState.messages.length = 1 ∧
      (handleSubmitSettle
          (handleSubmitSettle (handleSubmitStart pendingChatState none "10:05").1
            (FetchOutcome.success ⟨"e", none, none, "answer one", none⟩) "10:06")
          (FetchOutcome.success ⟨"e", none, none, "answer two", none⟩)
          "10:07").messages.length = 4 := by
  decide

/-- C1 amended: `handleSubmit` itself never checks `isLoading`: invoked while
a request is pending with a non-empty prompt, it appends a second user message
and issues a second request.  Re-entrancy is prevented only in the view layer:
`handleSuggestedQuestionClick` checks `isLoading` (and the submit button and
input are disabled while loading), so a pending-state click is a no-op there,
but not in the orchestrator. -/
theorem submit_while_pending_appends_and_issues (s : ChatState) (sug : Option String)
    (now q n : String) (hp : s.isLoading = true)
    (h : jsTrim (currentPromptOf sug s.prompt) ≠ "") :
    (handleSubmitStart s sug now).2 = some (currentPromptOf sug s.prompt) ∧
      (handleSubmitStart s sug now).1.messages =
        s.messages ++ [userMessageOf sug (currentPromptOf sug s.prompt) now] ∧
      handleSuggestedQuestionClick s q n = (s, none) := by
  refine ⟨?_, ?_, ?_⟩
  · simp [handleSubmitStart, h]
  · simp [handleSubmitStart, h]
  · simp [handleSuggestedQuestionClick, hp]

/-- Witness for the amended C1 at the concrete pending state. -/
theorem submit_while_pending_appends_and_issues_witness :
    (pendingChatState.isLoading = true ∧
        jsTrim (currentPromptOf none pendingChatState.prompt) ≠ "") ∧
      ((handleSubmitStart pendingChatState none "10:05").2 =
          some (currentPromptOf none pendingChatState.prompt) ∧
        (handleSubmitStart pendingChatState none "10:05").1.messages =
          pendingChatState.messages ++
            [userMessageOf none (currentPromptOf none pendingChatState.prompt) "10:05"] ∧
        handleSuggestedQuestionClick pendingChatState "extra" "10:06" =
          (pendingChatState, none)) :=
  ⟨⟨by decide, by decide⟩,
    submit_while_pending_appends_and_issues pendingChatState none "10:05" "extra" "10:06"
      (by decide) (by decide)⟩

/-- The initial, hidden graph state. -/
def hiddenGraphState : GraphState :=
  { showGraph := false, graphData := none, graphDataLoading := false,
    graphDataError := none }

/-- A one-node snapshot used as a concrete fetch result. -/
def sampleGraph : GraphData :=
  { nodes := [{ id := "n1", name := "Node One" }], links := [] }

/-- C2 fails on the code: the completion handler of `fetchGraphDataAndShow`
never checks that its request is still the current one, so after
`handleHideGraph` a stale successful fetch still stores its snapshot:
`graphData` does not stay null. -/
theorem stale_graph_result_stores_snapshot_cex :
    (fetchGraphDataAndShowSettle
        (handleHideGraph (fetchGraphDataAndShowStart hiddenGraphState).1)
        (FetchOutcome.success sampleGraph)).graphData ≠ none ∧
      (fetchGraphDataAndShowSettle
          (handleHideGraph (fetchGraphDataAndShowStart hiddenGraphState).1)
          (FetchOutcome.success sampleGraph)).graphData = some sampleGraph := by
  decide

/-- C2 amended: when `hide()` runs before the fetch settles, the panel does
remain hidden (`showGraph` stays false and nothing is displayed), but the
stale result is applied rather than discarded: the successful settlement
stores its snapshot in `graphData` and clears the loading flag. -/
theorem stale_graph_result_applied_after_hide (g : GraphState) (d : GraphData) :
    fetchGraphDataAndShowSettle (handleHideGraph (fetchGraphDataAndShowStart g).1)
        (FetchOutcome.success d) =
      { showGraph := false, graphData := some d, graphDataLoading := false,
        graphDataError := none } ∧
      displayedGraph
        (fetchGraphDataAndShowSettle (handleHideGraph (fetchGraphDataAndShowStart g).1)
          (FetchOutcome.success d)) = none :=
  ⟨rfl, rfl⟩

/-- C3 fails on the code: `fetchGraphDataAndShow` never checks
`graphDataLoading`, so calling it again while the first fetch is loading
issues a duplicate in-flight fetch, and when both settle, both results are
applied — here the second settlement (a failure) overrides the first's
snapshot with an error, a race-determined mix. -/
theorem show_while_loading_second_fetch_cex :
    (fetchGraphDataAndShowStart hiddenGraphState).1.graphDataLoading = true ∧
      (fetchGraphDataAndShowStart
          (fetchGraphDataAndShowStart hiddenGraphState).1).2 = true ∧
      (fetchGraphDataAndShowSettle
          (fetchGraphDataAndShowSettle
            (fetchGraphDataAndShowStart
              (fetchGraphDataAndShowStart hiddenGraphState).1).1
            (FetchOutcome.success sampleGraph))
          (FetchOutcome.failure (FetchFailure.httpError none 500))).graphDataError ≠
        none := by
  decide

/-- C3 amended: calling `show()` while already loading leaves the state
unchanged (the error is already cleared, loading already raised, the panel
already shown) but is not a no-op at the request level: it issues a second
in-flight fetch, and every settlement is applied in arrival order, so the
final state reflects the last-settling fetch. -/
theorem show_while_loading_issues_second_fetch (g : GraphState)
    (h1 : g.graphDataLoading = true) (h2 : g.showGraph = true)
    (h3 : g.graphDataError = none) (d1 d2 : GraphData) :
    fetchGraphDataAndShowStart g = (g, true) ∧
      (fetchGraphDataAndShowSettle
          (fetchGraphDataAndShowSettle g (FetchOutcome.success d1))
          (FetchOutcome.success d2)).graphData = some d2 := by
  constructor
  · cases g
    simp_all [fetchGraphDataAndShowStart]
  · rfl

/-- Witness for the amended C3 at the state produced by a first `show()`. -/
theorem show_while_loading_issues_second_fetch_witness :
    ((fetchGraphDataAndShowStart hiddenGraphState).1.graphDataLoading = true ∧
        (fetchGraphDataAndShowStart hiddenGraphState).1.showGraph = true ∧
        (fetchGraphDataAndShowStart hiddenGraphState).1.graphDataError = none) ∧
      (fetchGraphDataAndShowStart (fetchGraphDataAndShowStart hiddenGraphState).1 =
          ((fetchGraphDataAndShowStart hiddenGraphState).1, true) ∧
        (fetchGraphDataAndShowSettle
            (fetchGraphDataAndShowSettle (fetchGraphDataAndShowStart hiddenGraphState).1
              (FetchOutcome.success ⟨[], []⟩))
            (FetchOutcome.success sampleGraph)).graphData = some sampleGraph) :=
  ⟨⟨rfl, rfl, rfl⟩,
    show_while_loading_issues_second_fetch (fetchGraphDataAndShowStart hiddenGraphState).1
      rfl rfl rfl ⟨[], []⟩ sampleGraph⟩

/-- A shown-with-data graph state holding a snapshot. -/
def shownGraphState : GraphState :=
  { showGraph := true, graphData := some sampleGraph, graphDataLoading := false,
    graphDataError := none }

/-- C4 fails on the code: `fetchGraphDataAndShow` never nulls `graphData`, so
a refresh from the shown-with-data state keeps the old snapshot stored
throughout the new loading state. -/
theorem old_snapshot_retained_during_loading_cex :
    (fetchGraphDataAndShowStart shownGraphState).1.graphDataLoading = true ∧
      (fetchGraphDataAndShowStart shownGraphState).1.graphData = some sampleGraph ∧
      (fetchGraphDataAndShowStart shownGraphState).1.graphData ≠ none := by
  decide

/-- C4 amended: a refresh keeps the previous snapshot stored in `graphData`
during the new loading state — it is replaced only when the new fetch
settles — but the retained snapshot is never displayed, because the view
renders the graph only while `graphDataLoading` is false. -/
theorem refetch_keeps_but_does_not_display_old_snapshot (g : GraphState) :
    (fetchGraphDataAndShowStart g).1.graphData = g.graphData ∧
      displayedGraph (fetchGraphDataAndShowStart g).1 = none := by
  constructor
  · rfl
  · simp [displayedGraph, fetchGraphDataAndShowStart]

/-- Helper: the `HTTP error! Status: N` template is never the empty string. -/
theorem httpStatusMessage_ne_empty (status : Nat) : httpStatusMessage status ≠ "" := by
  intro hEq
  have hl := congrArg String.length hEq
  rw [httpStatusMessage, String.length_append] at hl
  have h1 : ("HTTP error! Status: " : String).length = 20 := rfl
  have h2 : ("" : String).length = 0 := rfl
  rw [h1, h2] at hl
  omega

/-- C8 fails on the code as stated: an error body whose `error` field is
present but empty is not used — the JS `||` test discards it and the status
template is shown instead. -/
theorem empty_error_field_not_used_cex :
    (settleMessage
        (FetchOutcome.failure (FetchFailure.httpError (some "") 500)) "10:01").text =
        "HTTP error! Status: 500" ∧
      (settleMessage
          (FetchOutcome.failure (FetchFailure.httpError (some "") 500)) "10:01").text ≠
        "" := by
  decide

/-- C8 amended: every failed submit appends exactly one error message, right
after the user message; its text is the server-supplied `error` field when
present and non-empty, else for HTTP failures the generic status template,
and for parse or transport failures the failure's own description when
non-empty, else the fixed fallback text. -/
theorem error_message_fallback_chain (s : ChatState) (sug : Option String)
    (now later : String) (f : FetchFailure)
    (h : jsTrim (currentPromptOf sug s.prompt) ≠ "") :
    ∃ u e, (handleSubmitRun s sug now later (FetchOutcome.failure f)).messages =
        s.messages ++ [u, e] ∧
      u.type = MessageType.user ∧ e.type = MessageType.error ∧
      e.text =
        (match f with
          | .httpError (some msg) status =>
              if msg = "" then httpStatusMessage status else msg
          | .httpError none status => httpStatusMessage status
          | .httpErrorBadBody _ m => if m = "" then chatFallback else m
          | .badResponseBody m => if m = "" then chatFallback else m
          | .networkError m => if m = "" then chatFallback else m) := by
  refine ⟨userMessageOf sug (currentPromptOf sug s.prompt) now,
    settleMessage (FetchOutcome.failure f) later, ?_, rfl, rfl, ?_⟩
  · unfold handleSubmitRun handleSubmitStart
    simp [h, handleSubmitSettle]
  · cases f with
    | httpError ef status =>
        cases ef with
        | none =>
            simp [settleMessage, caughtText, thrownMessage,
              httpStatusMessage_ne_empty status]
        | some msg =>
            by_cases hm : msg = "" <;>
              simp [settleMessage, caughtText, thrownMessage, hm,
                httpStatusMessage_ne_empty status]
    | httpErrorBadBody status m => rfl
    | badResponseBody m => rfl
    | networkError m => rfl

/-- Witness for the amended C8 at the spec's scenario: an HTTP failure whose
body carries a non-empty `error` field yields that text verbatim. -/
theorem error_message_fallback_chain_witness :
    jsTrim (currentPromptOf none "q2") ≠ "" ∧
      ∃ u e, (handleSubmitRun ⟨"q2", [], false⟩ none "10:00" "10:01"
            (FetchOutcome.failure
              (FetchFailure.httpError (some "Knowledge graph unavailable")
                503))).messages =
          (⟨"q2", [], false⟩ : ChatState).messages ++ [u, e] ∧
        u.type = MessageType.user ∧ e.type = MessageType.error ∧
        e.text =
          (if "Knowledge graph unavailable" = "" then httpStatusMessage 503
           else "Knowledge graph unavailable") :=
  ⟨by decide,
    error_message_fallback_chain ⟨"q2", [], false⟩ none "10:00" "10:01"
      (FetchFailure.httpError (some "Knowledge graph unavailable") 503) (by decide)⟩

end Presontology
